import Mathlib

/-!
Verification development for `mullvad-daemon/src/resolver.rs`: a shallow
embedding of the embedded DNS-forwarding resolver (launcher, platform gate,
forwarding-authority construction, zone catalog, socket binding and serving
engine), together with theorems about its startup and failure behaviour.

External collaborators (libc, tokio, trust-dns) are modelled by an `Env`
oracle that fixes the outcome of every external call made during one run;
the embedded functions record their observable effects in a trace.
-/

namespace Resolver

/-- A DNS name: a sequence of labels (as in `trust_dns_proto::rr::domain::Name`).
`Name::root()` is the empty label sequence. -/
structure Name where
  labels : List String
deriving DecidableEq, Repr

/-- Model of `Name::root()`: the DNS root zone name (no labels). -/
def Name.root : Name := ⟨[]⟩

/-- Model of `trust_dns_client::rr::LowerName`: a DNS name normalized to lowercase. -/
structure LowerName where
  lowered : List String
deriving DecidableEq, Repr

/-- Model of `LowerName::new(&name)`: lowercase every label of the name. -/
def LowerName.new (n : Name) : LowerName := ⟨n.labels.map String.toLower⟩

/-- Model of `trust_dns_server::authority::ZoneType`. -/
inductive ZoneType
  | Primary
  | Secondary
  | Hint
  | Forward
deriving DecidableEq, Repr

/-- Model of `trust_dns_server::resolver::config::NameServerConfigGroup`: an ordered
group of upstream nameserver endpoints. -/
structure NameServerConfigGroup where
  servers : List String
deriving DecidableEq, Repr

/-- Model of `NameServerConfigGroup::cloudflare()`: the well-known Cloudflare public
resolver address group (1.1.1.1 / 1.0.0.1). -/
def NameServerConfigGroup.cloudflare : NameServerConfigGroup :=
  ⟨["1.1.1.1", "1.0.0.1"]⟩

/-- Model of `trust_dns_server::store::forwarder::ForwardConfig`:
`{ name_servers, options }`. -/
structure ForwardConfig where
  name_servers : NameServerConfigGroup
  options : Option Unit
deriving DecidableEq, Repr

/-- Model of `trust_dns_server::store::forwarder::ForwardAuthority`: the forwarding
zone handler, recording the construction parameters passed to
`ForwardAuthority::try_from_config(origin, zone_type, config)`. -/
structure ForwardAuthority where
  origin : Name
  zone_type : ZoneType
  config : ForwardConfig
deriving DecidableEq, Repr

/-- Model of `Box::new(Arc::new(RwLock::new(authority)))`: the shared, reader/writer
locked authority handle stored in the catalog. -/
structure SharedAuthority where
  auth : ForwardAuthority
deriving DecidableEq, Repr

/-- Model of `trust_dns_server::authority::Catalog`: a mapping from lowercased zone
name to the shared authority handle, modelled as an association list. -/
def Catalog := List (LowerName × SharedAuthority)
deriving DecidableEq, Repr

/-- Model of `Catalog::new()`: the empty catalog. -/
def Catalog.new : Catalog := []

/-- Model of `Catalog::upsert(name, authority)`: insert, replacing any existing entry
for the same name. -/
def Catalog.upsert (c : Catalog) (name : LowerName) (a : SharedAuthority) : Catalog :=
  (name, a) :: c.filter (fun p => p.1 ≠ name)

/-- A `std::io::Error` from tokio socket operations; `msg` is its `Display`
rendering. -/
structure IoError where
  msg : String
deriving DecidableEq, Repr

/-- Model of `format!("{}", err)` applied to an io error: its `Display` string. -/
def IoError.display (e : IoError) : String := e.msg

/-- Model of `std::time::Duration`, as used here only through `Duration::from_secs`. -/
structure Duration where
  secs : Nat
deriving DecidableEq, Repr

/-- Model of `Duration::from_secs(n)`. -/
def Duration.from_secs (n : Nat) : Duration := ⟨n⟩

/-- A bound `tokio1::net::UdpSocket`, remembering the bind address. -/
structure UdpSocket where
  addr : String
deriving DecidableEq, Repr

/-- A bound `tokio1::net::TcpListener`, remembering the bind address. -/
structure TcpListener where
  addr : String
deriving DecidableEq, Repr

deriving instance DecidableEq for Except

/-- Environment oracle: the outcome of every external call made during one
run of the resolver (one invocation of `start_resolver`). -/
structure Env where
  /-- Model of `talpid_core::macos::get_exclusion_gid()`. -/
  exclusionGid : Option Nat
  /-- Return value of `libc::setgid(gid)` for the obtained gid. -/
  setgidRet : Int
  /-- Whether `tokio1::runtime::Runtime::new()` succeeds. -/
  runtimeOk : Bool
  /-- Outcome of `ForwardAuthority::try_from_config` (error carries the
  library's descriptive error string). -/
  authorityResult : Except String Unit
  /-- Outcome of `UdpSocket::bind("0.0.0.0:53")`. -/
  udpBindResult : Except IoError Unit
  /-- Outcome of `TcpListener::bind("0.0.0.0:53")`. -/
  tcpBindResult : Except IoError Unit
  /-- Outcome of `server_future.block_until_done()`. -/
  serveResult : Except IoError Unit
deriving DecidableEq, Repr

/-- Observable effects of one run, in program order. -/
inductive Event
  | logError (msg : String)
  | logDebug (msg : String)
  | setgidCall (gid : Nat) (ret : Int)
  | runtimeCreate
  | runResolverCall
  | authorityBuild (ok : Bool)
  | bindUdpAttempt (addr : String)
  | bindTcpAttempt (addr : String)
  | registerSocket
  | registerListener (timeout : Duration)
  | blockUntilDone
  | panicked (msg : String)
deriving DecidableEq, Repr

/-- Model of `ForwardAuthority::try_from_config(origin, zone_type, &config)`: on
success (per the environment oracle) the authority holds exactly the
construction parameters; on failure the library's error string is returned. -/
def ForwardAuthority.try_from_config (env : Env) (origin : Name)
    (zt : ZoneType) (config : ForwardConfig) : Except String ForwardAuthority :=
  match env.authorityResult with
  | .ok _ => .ok ⟨origin, zt, config⟩
  | .error e => .error e

/-- Model of `forwarder_authority()`: build the forwarding authority for the DNS root,
zone type Forward, Cloudflare upstream group, default (`None`) options. -/
def forwarder_authority (env : Env) : Except String ForwardAuthority :=
  ForwardAuthority.try_from_config env Name.root ZoneType.Forward
    ⟨NameServerConfigGroup.cloudflare, none⟩

/-- Model of `UdpSocket::bind(addr)` under the environment oracle. -/
def UdpSocket.bind (env : Env) (addr : String) : Except IoError UdpSocket :=
  match env.udpBindResult with
  | .ok _ => .ok ⟨addr⟩
  | .error e => .error e

/-- Model of `TcpListener::bind(addr)` under the environment oracle. -/
def TcpListener.bind (env : Env) (addr : String) : Except IoError TcpListener :=
  match env.tcpBindResult with
  | .ok _ => .ok ⟨addr⟩
  | .error e => .error e

/-- Model of `trust_dns_server::ServerFuture`: the serving engine, holding the catalog
and the registered transports. -/
structure ServerFuture where
  catalog : Catalog
  udpSockets : List UdpSocket
  tcpListeners : List (TcpListener × Duration)
deriving DecidableEq, Repr

/-- Model of `ServerFuture::new(catalog)`: no transports registered yet. -/
def ServerFuture.new (c : Catalog) : ServerFuture := ⟨c, [], []⟩

/-- Model of `server_future.register_socket(udp)`. -/
def ServerFuture.register_socket (s : ServerFuture) (u : UdpSocket) : ServerFuture :=
  { s with udpSockets := s.udpSockets ++ [u] }

/-- Model of `server_future.register_listener(tcp, timeout)`. -/
def ServerFuture.register_listener (s : ServerFuture) (t : TcpListener)
    (d : Duration) : ServerFuture :=
  { s with tcpListeners := s.tcpListeners ++ [(t, d)] }

/-- Result of one execution of `run_resolver`: its return value, the trace of
observable effects inside `run_resolver`, and the final state of the
`ServerFuture` (`none` if the run aborted before the server was created). -/
structure RunResult where
  result : Except String Unit
  trace : List Event
  server : Option ServerFuture
deriving DecidableEq, Repr

/-- Model of `async fn run_resolver() -> Result<(), String>`: build the forwarding
authority, upsert it into a fresh catalog under the lowercased root name,
create the server future, bind UDP then TCP on `0.0.0.0:53` (each bind error
mapped to its `Display` string), register both transports (TCP with a
1-second timeout), then block until done. -/
def run_resolver (env : Env) : RunResult :=
  let catalog := Catalog.new
  match forwarder_authority env with
  | .error e =>
      { result := .error e
        trace := [Event.authorityBuild false]
        server := none }
  | .ok auth =>
      let catalog := catalog.upsert (LowerName.new Name.root) ⟨auth⟩
      let server := ServerFuture.new catalog
      match UdpSocket.bind env "0.0.0.0:53" with
      | .error err =>
          { result := .error err.display
            trace := [Event.authorityBuild true, Event.bindUdpAttempt "0.0.0.0:53"]
            server := some server }
      | .ok udp_sock =>
          match TcpListener.bind env "0.0.0.0:53" with
          | .error err =>
              { result := .error err.display
                trace := [Event.authorityBuild true, Event.bindUdpAttempt "0.0.0.0:53",
                          Event.bindTcpAttempt "0.0.0.0:53"]
                server := some server }
          | .ok tcp_sock =>
              let server := server.register_socket udp_sock
              let server := server.register_listener tcp_sock (Duration.from_secs 1)
              { result := env.serveResult.mapError IoError.display
                trace := [Event.authorityBuild true, Event.bindUdpAttempt "0.0.0.0:53",
                          Event.bindTcpAttempt "0.0.0.0:53", Event.registerSocket,
                          Event.registerListener (Duration.from_secs 1),
                          Event.blockUntilDone]
                server := some server }

/-- The launcher's `match rt.block_on(run_resolver())` arms: `Ok(_)` logs
"Resolver stopped unexpectedly" as an error, `Err(err)` logs
"Failed to run resolver: {err}". -/
def outcome_event : Except String Unit → Event
  | .ok _ => .logError "Resolver stopped unexpectedly"
  | .error err => .logError ("Failed to run resolver: " ++ err)

/-- Body of the spawned worker after the platform gate has passed: create the
tokio runtime (panicking on failure), log the debug message, run
`run_resolver` to completion and log its outcome as an error either way. -/
def runtime_and_run (env : Env) : List Event :=
  if env.runtimeOk then
    let r := run_resolver env
    [Event.runtimeCreate, Event.logDebug "Running DNS resolver", Event.runResolverCall]
      ++ r.trace ++ [outcome_event r.result]
  else
    [Event.runtimeCreate, Event.panicked "failed to initialize tokio runtime"]

/-- Model of `pub fn start_resolver()`: the trace of the spawned worker thread.
`macos` selects the `#[cfg(target_os = "macos")]` platform gate: when gated,
a missing exclusion gid returns silently, a nonzero `libc::setgid` return
logs an error and returns; otherwise (and on ungated platforms) the runtime
is created and `run_resolver` is driven to completion. -/
def start_resolver (macos : Bool) (env : Env) : List Event :=
  if macos then
    match env.exclusionGid with
    | none => []
    | some gid =>
        let ret := env.setgidRet
        if ret ≠ 0 then
          [Event.setgidCall gid ret, Event.logError "Failed to set group ID"]
        else
          Event.setgidCall gid ret :: runtime_and_run env
  else
    runtime_and_run env

/-- An event is one of the two socket-bind attempts. -/
def Event.isBind : Event → Bool
  | .bindUdpAttempt _ => true
  | .bindTcpAttempt _ => true
  | _ => false

/-- The one forwarding authority this program can ever build: root origin,
Forward zone type, Cloudflare upstream group, default options. -/
def fixed_authority : ForwardAuthority :=
  ⟨Name.root, ZoneType.Forward, ⟨NameServerConfigGroup.cloudflare, none⟩⟩

/-- The catalog as it stands right after the single `upsert`. -/
def root_catalog : Catalog :=
  Catalog.new.upsert (LowerName.new Name.root) ⟨fixed_authority⟩

lemma forwarder_authority_ok (env : Env) (auth : ForwardAuthority)
    (h : forwarder_authority env = .ok auth) :
    env.authorityResult = .ok () ∧ auth = fixed_authority := by
  unfold forwarder_authority ForwardAuthority.try_from_config at h
  cases hres : env.authorityResult with
  | ok u =>
      cases u
      rw [hres] at h
      simp only [Except.ok.injEq] at h
      exact ⟨rfl, h.symm⟩
  | error e =>
      rw [hres] at h
      simp at h

lemma run_auth_err (env : Env) (e : String) (h : env.authorityResult = .error e) :
    run_resolver env =
      { result := .error e, trace := [Event.authorityBuild false], server := none } := by
  simp [run_resolver, forwarder_authority, ForwardAuthority.try_from_config, h]

lemma run_udp_err (env : Env) (er : IoError) (ha : env.authorityResult = .ok ())
    (hu : env.udpBindResult = .error er) :
    run_resolver env =
      { result := .error er.msg
        trace := [Event.authorityBuild true, Event.bindUdpAttempt "0.0.0.0:53"]
        server := some (ServerFuture.new root_catalog) } := by
  simp [run_resolver, forwarder_authority, ForwardAuthority.try_from_config, ha,
        UdpSocket.bind, hu, IoError.display, root_catalog, fixed_authority]

lemma run_tcp_err (env : Env) (er : IoError) (ha : env.authorityResult = .ok ())
    (hu : env.udpBindResult = .ok ()) (ht : env.tcpBindResult = .error er) :
    run_resolver env =
      { result := .error er.msg
        trace := [Event.authorityBuild true, Event.bindUdpAttempt "0.0.0.0:53",
                  Event.bindTcpAttempt "0.0.0.0:53"]
        server := some (ServerFuture.new root_catalog) } := by
  simp [run_resolver, forwarder_authority, ForwardAuthority.try_from_config, ha,
        UdpSocket.bind, hu, TcpListener.bind, ht, IoError.display, root_catalog,
        fixed_authority]

lemma run_all_ok (env : Env) (ha : env.authorityResult = .ok ())
    (hu : env.udpBindResult = .ok ()) (ht : env.tcpBindResult = .ok ()) :
    run_resolver env =
      { result := env.serveResult.mapError IoError.display
        trace := [Event.authorityBuild true, Event.bindUdpAttempt "0.0.0.0:53",
                  Event.bindTcpAttempt "0.0.0.0:53", Event.registerSocket,
                  Event.registerListener (Duration.from_secs 1), Event.blockUntilDone]
        server := some ⟨root_catalog, [⟨"0.0.0.0:53"⟩],
                        [(⟨"0.0.0.0:53"⟩, Duration.from_secs 1)]⟩ } := by
  simp [run_resolver, forwarder_authority, ForwardAuthority.try_from_config, ha,
        UdpSocket.bind, hu, TcpListener.bind, ht, root_catalog, fixed_authority,
        ServerFuture.new, ServerFuture.register_socket, ServerFuture.register_listener]

lemma start_gid_none (env : Env) (h : env.exclusionGid = none) :
    start_resolver true env = [] := by
  simp [start_resolver, h]

lemma start_setgid_fail (env : Env) (gid : Nat) (hg : env.exclusionGid = some gid)
    (hs : env.setgidRet ≠ 0) :
    start_resolver true env =
      [Event.setgidCall gid env.setgidRet, Event.logError "Failed to set group ID"] := by
  simp [start_resolver, hg, hs]

lemma start_gate_ok (env : Env) (gid : Nat) (hg : env.exclusionGid = some gid)
    (hs : env.setgidRet = 0) (hr : env.runtimeOk = true) :
    start_resolver true env =
      Event.setgidCall gid 0 :: Event.runtimeCreate ::
        Event.logDebug "Running DNS resolver" :: Event.runResolverCall ::
        ((run_resolver env).trace ++ [outcome_event (run_resolver env).result]) := by
  simp [start_resolver, runtime_and_run, hg, hs, hr]

/-- No event inside `run_resolver`'s own trace is the launcher's
`runResolverCall` marker, whatever the environment. -/
lemma run_trace_no_call (env : Env) :
    Event.runResolverCall ∉ (run_resolver env).trace := by
  cases ha : env.authorityResult with
  | error e => rw [run_auth_err env e ha]; simp
  | ok u =>
      cases u
      cases hu : env.udpBindResult with
      | error er => rw [run_udp_err env er ha hu]; simp
      | ok v =>
          cases v
          cases ht : env.tcpBindResult with
          | error er => rw [run_tcp_err env er ha hu ht]; simp
          | ok w => cases w; rw [run_all_ok env ha hu ht]; simp

/-- A run in which every external call succeeds. -/
def env_ok : Env :=
  ⟨some 1000, 0, true, .ok (), .ok (), .ok (), .ok ()⟩

/-- A run on which no exclusion gid is obtainable. -/
def env_gid_none : Env := { env_ok with exclusionGid := none }

/-- A run on which `libc::setgid` fails. -/
def env_setgid_fail : Env := { env_ok with setgidRet := 1 }

/-- A run on which authority construction fails. -/
def env_auth_err : Env := { env_ok with authorityResult := .error "authority failed" }

/-- A run on which the UDP bind fails. -/
def env_udp_err : Env := { env_ok with udpBindResult := .error ⟨"address in use"⟩ }

/-- A run on which the TCP bind fails. -/
def env_tcp_err : Env := { env_ok with tcpBindResult := .error ⟨"address in use"⟩ }

/-- A run on which the serve loop fails. -/
def env_serve_err : Env := { env_ok with serveResult := .error ⟨"transport error"⟩ }

lemma getLast_append_single {α : Type} (l : List α) (x : α) :
    (l ++ [x]).getLast? = some x := by
  simp

lemma getLast_tail_single {α : Type} (a b c d : α) (l : List α) (x : α) :
    (a :: b :: c :: d :: (l ++ [x])).getLast? = some x :=
  getLast_append_single (a :: b :: c :: d :: l) x

lemma forwarder_authority_err (env : Env) (e : String)
    (h : forwarder_authority env = .error e) :
    env.authorityResult = .error e := by
  unfold forwarder_authority ForwardAuthority.try_from_config at h
  cases hres : env.authorityResult with
  | ok u => cases u; simp [hres] at h
  | error e2 => simp [hres] at h; subst h; rfl

/-- Claim C1: on the gated platform the two gate-failure paths are asymmetric:
with no exclusion gid the worker returns silently (empty trace, nothing
logged, no server started), while a nonzero `setgid` return logs
"Failed to set group ID" and returns; in both cases `run_resolver` is never
invoked. -/
theorem spec_C1 (env : Env) :
    (env.exclusionGid = none →
      start_resolver true env = [] ∧
      Event.runResolverCall ∉ start_resolver true env) ∧
    (∀ gid, env.exclusionGid = some gid → env.setgidRet ≠ 0 →
      start_resolver true env =
        [Event.setgidCall gid env.setgidRet, Event.logError "Failed to set group ID"] ∧
      Event.runResolverCall ∉ start_resolver true env) := by
  constructor
  · intro h
    rw [start_gid_none env h]
    simp
  · intro gid hg hs
    rw [start_setgid_fail env gid hg hs]
    simp

/-- Witness for C1 at two concrete runs: a missing exclusion gid and a failing
`setgid`. -/
theorem spec_C1_witness :
    (start_resolver true env_gid_none = [] ∧
      Event.runResolverCall ∉ start_resolver true env_gid_none) ∧
    (start_resolver true env_setgid_fail =
        [Event.setgidCall 1000 1, Event.logError "Failed to set group ID"] ∧
      Event.runResolverCall ∉ start_resolver true env_setgid_fail) :=
  ⟨(spec_C1 env_gid_none).1 rfl,
   (spec_C1 env_setgid_fail).2 1000 rfl (by decide)⟩

/-- Claim C2: on the gated platform, when the exclusion gid is unavailable no
socket-bind operation is ever reached. -/
theorem spec_C2 (env : Env) (h : env.exclusionGid = none) (a : String) :
    Event.bindUdpAttempt a ∉ start_resolver true env ∧
    Event.bindTcpAttempt a ∉ start_resolver true env := by
  rw [start_gid_none env h]
  simp

/-- Witness for C2 at a concrete run with no exclusion gid. -/
theorem spec_C2_witness :
    Event.bindUdpAttempt "0.0.0.0:53" ∉ start_resolver true env_gid_none ∧
    Event.bindTcpAttempt "0.0.0.0:53" ∉ start_resolver true env_gid_none :=
  spec_C2 env_gid_none rfl "0.0.0.0:53"

/-- Claim C3: once the authority is built, the catalog holds exactly one
entry — the lowercase-normalized root name mapped to the shared authority
handle — and it still holds exactly that entry at the end of the run,
whatever the run's outcome (no later operation mutates the catalog). -/
theorem spec_C3 (env : Env) (auth : ForwardAuthority)
    (h : forwarder_authority env = .ok auth) :
    (run_resolver env).server.map ServerFuture.catalog =
      some [(LowerName.new Name.root, ⟨auth⟩)] ∧
    (run_resolver env).server.map (fun s => s.catalog.length) = some 1 ∧
    LowerName.new Name.root = ⟨[]⟩ := by
  obtain ⟨ha, rfl⟩ := forwarder_authority_ok env auth h
  cases hu : env.udpBindResult with
  | error er =>
      rw [run_udp_err env er ha hu]
      simp [root_catalog, Catalog.upsert, Catalog.new, ServerFuture.new,
            LowerName.new, Name.root]
  | ok v =>
      cases v
      cases ht : env.tcpBindResult with
      | error er =>
          rw [run_tcp_err env er ha hu ht]
          simp [root_catalog, Catalog.upsert, Catalog.new, ServerFuture.new,
                LowerName.new, Name.root]
      | ok w =>
          cases w
          rw [run_all_ok env ha hu ht]
          simp [root_catalog, Catalog.upsert, Catalog.new, ServerFuture.new,
                LowerName.new, Name.root]

/-- Witness for C3 at the all-success run. -/
theorem spec_C3_witness :
    (run_resolver env_ok).server.map ServerFuture.catalog =
      some [(LowerName.new Name.root, ⟨fixed_authority⟩)] ∧
    (run_resolver env_ok).server.map (fun s => s.catalog.length) = some 1 ∧
    LowerName.new Name.root = ⟨[]⟩ :=
  spec_C3 env_ok fixed_authority rfl

/-- Claim C4: a failing UDP or TCP bind makes `run_resolver` return the
transport error's `Display` string, with neither transport registered with
the serving engine; `register_socket` appears in a trace only when both
binds succeeded. -/
theorem spec_C4 (env : Env) :
    (∀ er, env.authorityResult = .ok () → env.udpBindResult = .error er →
      (run_resolver env).result = .error er.display ∧
      Event.registerSocket ∉ (run_resolver env).trace ∧
      (∀ d, Event.registerListener d ∉ (run_resolver env).trace) ∧
      (run_resolver env).server.map (fun s => (s.udpSockets, s.tcpListeners)) =
        some ([], [])) ∧
    (∀ er, env.authorityResult = .ok () → env.udpBindResult = .ok () →
      env.tcpBindResult = .error er →
      (run_resolver env).result = .error er.display ∧
      Event.registerSocket ∉ (run_resolver env).trace ∧
      (∀ d, Event.registerListener d ∉ (run_resolver env).trace) ∧
      (run_resolver env).server.map (fun s => (s.udpSockets, s.tcpListeners)) =
        some ([], [])) ∧
    (Event.registerSocket ∈ (run_resolver env).trace →
      env.udpBindResult = .ok () ∧ env.tcpBindResult = .ok ()) := by
  refine ⟨?_, ?_, ?_⟩
  · intro er ha hu
    rw [run_udp_err env er ha hu]
    simp [IoError.display, ServerFuture.new]
  · intro er ha hu ht
    rw [run_tcp_err env er ha hu ht]
    simp [IoError.display, ServerFuture.new]
  · intro hmem
    cases ha : env.authorityResult with
    | error e => rw [run_auth_err env e ha] at hmem; simp at hmem
    | ok u =>
        cases u
        cases hu : env.udpBindResult with
        | error er => rw [run_udp_err env er ha hu] at hmem; simp at hmem
        | ok v =>
            cases v
            cases ht : env.tcpBindResult with
            | error er => rw [run_tcp_err env er ha hu ht] at hmem; simp at hmem
            | ok w => cases w; exact ⟨rfl, rfl⟩

/-- Witness for C4 at concrete runs with a failing UDP bind and a failing
TCP bind. -/
theorem spec_C4_witness :
    (run_resolver env_udp_err).result = .error "address in use" ∧
    Event.registerSocket ∉ (run_resolver env_udp_err).trace ∧
    (run_resolver env_tcp_err).result = .error "address in use" ∧
    (run_resolver env_tcp_err).server.map (fun s => (s.udpSockets, s.tcpListeners)) =
      some ([], []) := by
  have h1 := (spec_C4 env_udp_err).1 ⟨"address in use"⟩ rfl rfl
  have h2 := (spec_C4 env_tcp_err).2.1 ⟨"address in use"⟩ rfl rfl rfl
  exact ⟨h1.1, h1.2.1, h2.1, h2.2.2.2⟩

/-- Claim C5: every successfully built forwarding authority has root origin,
Forward zone type, the Cloudflare upstream group, and default (`None`)
options. -/
theorem spec_C5 (env : Env) (auth : ForwardAuthority)
    (h : forwarder_authority env = .ok auth) :
    auth.origin = Name.root ∧ auth.zone_type = ZoneType.Forward ∧
    auth.config.name_servers = NameServerConfigGroup.cloudflare ∧
    auth.config.options = none := by
  obtain ⟨-, rfl⟩ := forwarder_authority_ok env auth h
  exact ⟨rfl, rfl, rfl, rfl⟩

/-- Witness for C5 at the all-success run. -/
theorem spec_C5_witness :
    fixed_authority.origin = Name.root ∧
    fixed_authority.zone_type = ZoneType.Forward ∧
    fixed_authority.config.name_servers = NameServerConfigGroup.cloudflare ∧
    fixed_authority.config.options = none :=
  spec_C5 env_ok fixed_authority rfl

/-- Claim C6: a failing authority construction makes `run_resolver` return
that error string; no fallback authority is attempted (the trace holds the
single failed build event), no socket is bound, and no server is created. -/
theorem spec_C6 (env : Env) (e : String)
    (h : forwarder_authority env = .error e) :
    (run_resolver env).result = .error e ∧
    (run_resolver env).trace = [Event.authorityBuild false] ∧
    (∀ a, Event.bindUdpAttempt a ∉ (run_resolver env).trace ∧
          Event.bindTcpAttempt a ∉ (run_resolver env).trace) ∧
    (run_resolver env).server = none := by
  rw [run_auth_err env e (forwarder_authority_err env e h)]
  simp

/-- Witness for C6 at a concrete run with a failing authority build. -/
theorem spec_C6_witness :
    (run_resolver env_auth_err).result = .error "authority failed" ∧
    (run_resolver env_auth_err).trace = [Event.authorityBuild false] ∧
    Event.bindUdpAttempt "0.0.0.0:53" ∉ (run_resolver env_auth_err).trace ∧
    (run_resolver env_auth_err).server = none := by
  have h := spec_C6 env_auth_err "authority failed" rfl
  exact ⟨h.1, h.2.1, (h.2.2.1 "0.0.0.0:53").1, h.2.2.2⟩

/-- Claim C7: when every external call succeeds, `run_resolver` binds one UDP
socket and one TCP listener on `0.0.0.0:53`, registers both with the serving
engine, and registers the TCP listener with a timeout of exactly 1 second. -/
theorem spec_C7 (env : Env) (ha : env.authorityResult = .ok ())
    (hu : env.udpBindResult = .ok ()) (ht : env.tcpBindResult = .ok ()) :
    Event.bindUdpAttempt "0.0.0.0:53" ∈ (run_resolver env).trace ∧
    Event.bindTcpAttempt "0.0.0.0:53" ∈ (run_resolver env).trace ∧
    (run_resolver env).server.map (fun s => (s.udpSockets, s.tcpListeners)) =
      some ([⟨"0.0.0.0:53"⟩], [(⟨"0.0.0.0:53"⟩, Duration.from_secs 1)]) ∧
    Event.registerSocket ∈ (run_resolver env).trace ∧
    Event.registerListener (Duration.from_secs 1) ∈ (run_resolver env).trace ∧
    Duration.from_secs 1 = ⟨1⟩ := by
  rw [run_all_ok env ha hu ht]
  simp [Duration.from_secs]

/-- Witness for C7 at the all-success run. -/
theorem spec_C7_witness :
    Event.bindUdpAttempt "0.0.0.0:53" ∈ (run_resolver env_ok).trace ∧
    Event.bindTcpAttempt "0.0.0.0:53" ∈ (run_resolver env_ok).trace ∧
    (run_resolver env_ok).server.map (fun s => (s.udpSockets, s.tcpListeners)) =
      some ([⟨"0.0.0.0:53"⟩], [(⟨"0.0.0.0:53"⟩, Duration.from_secs 1)]) ∧
    Event.registerSocket ∈ (run_resolver env_ok).trace ∧
    Event.registerListener (Duration.from_secs 1) ∈ (run_resolver env_ok).trace ∧
    Duration.from_secs 1 = ⟨1⟩ :=
  spec_C7 env_ok rfl rfl rfl

/-- Claim C8: once the gate passes, the worker's terminal handling logs an
error for both outcomes of `run_resolver` — "Resolver stopped unexpectedly"
on `Ok`, "Failed to run resolver: {err}" on `Err` — as the last event of the
run, and `run_resolver` is invoked exactly once (no retry). -/
theorem spec_C8 (env : Env) (gid : Nat) (hg : env.exclusionGid = some gid)
    (hs : env.setgidRet = 0) (hr : env.runtimeOk = true) :
    ((run_resolver env).result = .ok () →
      (start_resolver true env).getLast? =
        some (Event.logError "Resolver stopped unexpectedly")) ∧
    (∀ e, (run_resolver env).result = .error e →
      (start_resolver true env).getLast? =
        some (Event.logError ("Failed to run resolver: " ++ e))) ∧
    (start_resolver true env).count Event.runResolverCall = 1 := by
  rw [start_gate_ok env gid hg hs hr]
  refine ⟨?_, ?_, ?_⟩
  · intro hok
    rw [hok]
    exact getLast_tail_single _ _ _ _ _ _
  · intro e herr
    rw [herr]
    exact getLast_tail_single _ _ _ _ _ _
  · have h0 : (run_resolver env).trace.count Event.runResolverCall = 0 :=
      List.count_eq_zero.mpr (run_trace_no_call env)
    cases hres : (run_resolver env).result with
    | ok u =>
        cases u
        simp [List.count_cons, List.count_append, h0, hres, outcome_event]
    | error e =>
        simp [List.count_cons, List.count_append, h0, hres, outcome_event]

/-- Witness for C8 at the all-success run and at a run with a failing serve
loop. -/
theorem spec_C8_witness :
    (start_resolver true env_ok).getLast? =
      some (Event.logError "Resolver stopped unexpectedly") ∧
    (start_resolver true env_serve_err).getLast? =
      some (Event.logError "Failed to run resolver: transport error") ∧
    (start_resolver true env_ok).count Event.runResolverCall = 1 := by
  refine ⟨(spec_C8 env_ok 1000 rfl rfl rfl).1 rfl, ?_,
          (spec_C8 env_ok 1000 rfl rfl rfl).2.2⟩
  exact (spec_C8 env_serve_err 1000 rfl rfl rfl).2.1 "transport error" rfl

/-- Claim C9: `run_resolver` returns `Err e` exactly when one of the four
internal failure sources (authority build, UDP bind, TCP bind, serve loop)
failed with that descriptive string — there is no other failure mechanism —
and whenever the gate passed, the launcher's terminal handler logs that
string. -/
theorem spec_C9 (env : Env) (e : String) :
    ((run_resolver env).result = .error e ↔
      (env.authorityResult = .error e ∨
       (env.authorityResult = .ok () ∧ env.udpBindResult = .error ⟨e⟩) ∨
       (env.authorityResult = .ok () ∧ env.udpBindResult = .ok () ∧
        env.tcpBindResult = .error ⟨e⟩) ∨
       (env.authorityResult = .ok () ∧ env.udpBindResult = .ok () ∧
        env.tcpBindResult = .ok () ∧ env.serveResult = .error ⟨e⟩))) ∧
    (∀ gid, env.exclusionGid = some gid → env.setgidRet = 0 → env.runtimeOk = true →
      (run_resolver env).result = .error e →
      Event.logError ("Failed to run resolver: " ++ e) ∈ start_resolver true env) := by
  constructor
  · cases ha : env.authorityResult with
    | error e2 =>
        rw [run_auth_err env e2 ha]
        simp [ha]
    | ok u =>
        cases u
        cases hu : env.udpBindResult with
        | error er =>
            cases er with
            | mk em =>
                rw [run_udp_err env ⟨em⟩ ha hu]
                simp [ha, hu]
        | ok v =>
            cases v
            cases ht : env.tcpBindResult with
            | error er =>
                cases er with
                | mk em =>
                    rw [run_tcp_err env ⟨em⟩ ha hu ht]
                    simp [ha, hu, ht]
            | ok w =>
                cases w
                rw [run_all_ok env ha hu ht]
                cases hsv : env.serveResult with
                | error er =>
                    cases er with
                    | mk em => simp [ha, hu, ht, hsv, Except.mapError, IoError.display]
                | ok z =>
                    cases z
                    simp [ha, hu, ht, hsv, Except.mapError]
  · intro gid hg hs hr herr
    rw [start_gate_ok env gid hg hs hr]
    simp [herr, outcome_event]

/-- Witness for C9 at a concrete run with a failing authority build. -/
theorem spec_C9_witness :
    (run_resolver env_auth_err).result = .error "authority failed" ∧
    Event.logError "Failed to run resolver: authority failed" ∈
      start_resolver true env_auth_err := by
  have h := spec_C9 env_auth_err "authority failed"
  have hres : (run_resolver env_auth_err).result = .error "authority failed" :=
    h.1.mpr (Or.inl rfl)
  exact ⟨hres, h.2 1000 rfl rfl rfl hres⟩

/-- Claim C10: the UDP bind strictly precedes the TCP bind — a failed UDP bind
means the TCP listener is never created, a failed TCP bind after a successful
UDP bind means the UDP socket is never registered — and every possible bind
sub-trace is one of nothing, UDP alone, or UDP followed by TCP. -/
theorem spec_C10 (env : Env) :
    (∀ er, env.authorityResult = .ok () → env.udpBindResult = .error er →
      ∀ a, Event.bindTcpAttempt a ∉ (run_resolver env).trace) ∧
    (∀ er, env.authorityResult = .ok () → env.udpBindResult = .ok () →
      env.tcpBindResult = .error er →
      Event.registerSocket ∉ (run_resolver env).trace ∧
      (run_resolver env).server.map (fun s => s.udpSockets) = some []) ∧
    ((run_resolver env).trace.filter Event.isBind = [] ∨
     (run_resolver env).trace.filter Event.isBind =
       [Event.bindUdpAttempt "0.0.0.0:53"] ∨
     (run_resolver env).trace.filter Event.isBind =
       [Event.bindUdpAttempt "0.0.0.0:53", Event.bindTcpAttempt "0.0.0.0:53"]) := by
  refine ⟨?_, ?_, ?_⟩
  · intro er ha hu a
    rw [run_udp_err env er ha hu]
    simp
  · intro er ha hu ht
    rw [run_tcp_err env er ha hu ht]
    simp [ServerFuture.new]
  · cases ha : env.authorityResult with
    | error e => rw [run_auth_err env e ha]; left; rfl
    | ok u =>
        cases u
        cases hu : env.udpBindResult with
        | error er => rw [run_udp_err env er ha hu]; right; left; rfl
        | ok v =>
            cases v
            cases ht : env.tcpBindResult with
            | error er => rw [run_tcp_err env er ha hu ht]; right; right; rfl
            | ok w => cases w; rw [run_all_ok env ha hu ht]; right; right; rfl

/-- Witness for C10 at concrete runs with a failing UDP bind and a failing
TCP bind. -/
theorem spec_C10_witness :
    Event.bindTcpAttempt "0.0.0.0:53" ∉ (run_resolver env_udp_err).trace ∧
    Event.registerSocket ∉ (run_resolver env_tcp_err).trace ∧
    (run_resolver env_tcp_err).server.map (fun s => s.udpSockets) = some [] := by
  refine ⟨(spec_C10 env_udp_err).1 ⟨"address in use"⟩ rfl rfl "0.0.0.0:53", ?_, ?_⟩
  · exact ((spec_C10 env_tcp_err).2.1 ⟨"address in use"⟩ rfl rfl rfl).1
  · exact ((spec_C10 env_tcp_err).2.1 ⟨"address in use"⟩ rfl rfl rfl).2

end Resolver
